import Mathlib

/-!
Verification development for the obgyn-cse-proxy gateway (src/server.js).

The JavaScript source is shallowly embedded below.  Numbers that JavaScript
handles as IEEE doubles appear here as `Option Int`, where `none` models the
value `NaN` produced by a failed `parseInt`; every arithmetic helper
(`jsAdd`, `jsMin`, `jsSlice`) reproduces the ECMAScript behaviour of the
corresponding operation in the presence of `NaN`.  Strings that may be
`undefined` (request parameters, headers, environment variables) are
`Option String`, and JavaScript truthiness of such a value is `jsTruthy`.
The network is external to the program, so the upstream HTTPS exchange is a
parameter (`UpstreamResult`).  The host-platform URL parser used for
`new URL(link).hostname` is a function parameter of type
`String → Except String String`: `new URL` throws on an unparsable link,
modelled by `Except.error` carrying the thrown message, and the handler's
catch converts that throw into a 500 response exactly as line 145 does.
-/

/-- JavaScript whitespace characters relevant to `parseInt` skipping and
`String.prototype.trim` (ASCII subset; the gateway only ever receives these). -/
def jsWhitespace (c : Char) : Bool :=
  c = ' ' || c = '\t' || c = '\n' || c = '\r' || c = '\x0b' || c = '\x0c'

/-- Value of the longest leading run of decimal digits; `none` when there is
no leading digit (the case in which JavaScript `parseInt` returns `NaN`). -/
def leadDigits (cs : List Char) : Option Nat :=
  let ds := cs.takeWhile Char.isDigit
  if ds.isEmpty then none
  else some (ds.foldl (fun a c => a * 10 + (c.toNat - 48)) 0)

/-- Models the JavaScript builtin `parseInt(s)` on its base-10 path (leading
whitespace skipped, optional sign, longest digit prefix; `none` = `NaN`).
The `0x` hexadecimal form is never exercised by the gateway's inputs. -/
def parseIntJS (s : String) : Option Int :=
  match s.toList.dropWhile jsWhitespace with
  | '-' :: rest => (leadDigits rest).map (fun n => -(n : Int))
  | '+' :: rest => (leadDigits rest).map (fun n => (n : Int))
  | cs => (leadDigits cs).map (fun n => (n : Int))

/-- JavaScript truthiness of a possibly-`undefined` string: `undefined`
(`none`) and the empty string are falsy, every other string is truthy. -/
def jsTruthy : Option String → Bool
  | none => false
  | some s => decide (s ≠ "")

/-- Models the check `s.trim().length === 0`: every character is whitespace. -/
def trimmedEmpty (s : String) : Bool :=
  s.toList.all jsWhitespace

/-- `Math.min` on two JavaScript numbers; `NaN` (here `none`) is absorbing. -/
def jsMin : Option Int → Option Int → Option Int
  | some a, some b => some (min a b)
  | _, _ => none

/-- Addition of a JavaScript number and an integer constant; `NaN` propagates. -/
def jsAdd (a : Option Int) (n : Int) : Option Int :=
  a.map (· + n)

/-- Models `arr.slice(0, e)` for a JavaScript number `e`: a `NaN` bound is
converted to `0` (empty result); a negative bound counts from the end;
a bound past the length is clamped. -/
def jsSlice (l : List α) (e : Option Int) : List α :=
  match e with
  | none => []
  | some n =>
    let bound : Int := if 0 ≤ n then n else (l.length : Int) + n
    l.take (max 0 bound).toNat

/-- Models `arr.join(' OR ')`. -/
def joinOR : List String → String
  | [] => ""
  | [x] => x
  | x :: y :: ys => x ++ " OR " ++ joinOR (y :: ys)

/-- One provider result item (`cseResponse.items[i]`): title, snippet, link. -/
structure Item where
  title : String
  snippet : String
  link : String
  deriving Repr, DecidableEq

/-- The provider's embedded error object (`result.error`), of which the code
reads the `message` field. -/
structure CSEError where
  message : String
  deriving Repr, DecidableEq

/-- `cseResponse.searchInformation`; `totalResults` is a string field that
may be absent. -/
structure SearchInformation where
  totalResults : Option String
  deriving Repr, DecidableEq

/-- A parsed provider payload: the fields of the Google CSE response the
gateway consumes. -/
structure CSEResponse where
  searchInformation : Option SearchInformation
  items : Option (List Item)
  error : Option CSEError
  deriving Repr, DecidableEq

/-- One normalized result record (server.js lines 134-140).  `id` is a
JavaScript number because it is built from `parseInt(offset)`. -/
structure ResultRec where
  id : Option Int
  title : String
  description : String
  url : String
  domain : String
  deriving Repr, DecidableEq

/-- The normalized 200-response body (server.js lines 128-141). -/
structure SearchResponse where
  query : String
  total : Option Int
  limit : Option Int
  offset : Option Int
  allowedDomains : List String
  results : List ResultRec
  deriving Repr, DecidableEq

/-- A JSON error body.  `message` and `allowedDomains` are optional because
the credential-gate bodies (lines 18, 23, 28) carry only `error`. -/
structure ErrorBody where
  error : String
  message : Option String := none
  allowedDomains : Option (List String) := none
  deriving Repr, DecidableEq

/-- Outcome of one request: a 200 with a `SearchResponse` body, or an error
status with an `ErrorBody`. -/
inductive HttpResult where
  | success (body : SearchResponse)
  | failure (status : Nat) (body : ErrorBody)
  deriving Repr, DecidableEq

/-- HTTP status of a result (`res.json` without `status` means 200). -/
def httpStatus : HttpResult → Nat
  | .success _ => 200
  | .failure s _ => s

/-- Process environment variables consumed by the gateway. -/
structure Env where
  expectedKey : Option String
  googleKey : Option String
  cx : Option String
  deriving Repr, DecidableEq

/-- What the external network did for the single outbound HTTPS call:
a network-level failure, or a body that either failed JSON parsing
(`payload none`) or parsed to a `CSEResponse`. -/
inductive UpstreamResult where
  | netError
  | payload (parsed : Option CSEResponse)
  deriving Repr, DecidableEq

/-- Decision of the credential-gate middleware. -/
inductive GateResult where
  | configError
  | missingKey
  | invalidKey
  | pass
  deriving Repr, DecidableEq

/-- The fixed allowlist `ALLOW` (server.js lines 80-105), in insertion
order; `Array.from(ALLOW)` yields exactly this list. -/
def ALLOW : List String :=
  [ "acog.org", "www.acog.org",
    "smfm.org", "www.smfm.org",
    "sgo.org", "www.sgo.org",
    "asrm.org", "www.asrm.org",
    "radiopaedia.org", "www.radiopaedia.org",
    "perinatology.com", "www.perinatology.com",
    "cdc.gov", "www.cdc.gov",
    "ncbi.nlm.nih.gov", "www.ncbi.nlm.nih.gov",
    "pmc.ncbi.nlm.nih.gov", "books.ncbi.nlm.nih.gov",
    "exxcellence.org", "www.exxcellence.org",
    "obgproject.com", "www.obgproject.com",
    "creogsovercoffee.com", "www.creogsovercoffee.com" ]

/-- Line 45 generalised over the allowlist:
`Array.from(allow).map(domain => `site:${domain}`).join(' OR ')`. -/
def siteRestrictOf (allow : List String) : String :=
  joinOR (allow.map (fun domain => "site:" ++ domain))

/-- Line 45 as written, with the fixed allowlist. -/
def siteRestrict : String :=
  siteRestrictOf ALLOW

/-- Line 46 before URI-encoding, generalised over the allowlist:
the string `${query} (${siteRestrict})`. -/
def composedQueryOf (allow : List String) (query : String) : String :=
  query ++ " (" ++ siteRestrictOf allow ++ ")"

/-- Line 46 as written, with the fixed allowlist. -/
def composedQuery (query : String) : String :=
  composedQueryOf ALLOW query

/-- A caller-supplied numeric request parameter: absent means the JavaScript
default `d` from the destructuring on line 109, present means `parseInt`. -/
def parseParam (raw : Option String) (d : Int) : Option Int :=
  match raw with
  | none => some d
  | some s => parseIntJS s

/-- Line 122: `const start = parseInt(offset) + 1`, the 1-based start index
passed to the provider. -/
def startOf (offsetParsed : Option Int) : Option Int :=
  jsAdd offsetParsed 1

/-- The `validateApiKey` middleware (lines 12-32) as a decision function on
the caller's header value and the configured expected key. -/
def validateApiKey (apiKey expectedKey : Option String) : GateResult :=
  if !jsTruthy expectedKey then .configError
  else if !jsTruthy apiKey then .missingKey
  else if apiKey ≠ expectedKey then .invalidKey
  else .pass

/-- `makeGoogleCSERequest` (lines 35-77) as a function of the provider
configuration and of what the network returned.  The rejection messages are
the `Error` messages the code constructs. -/
def makeGoogleCSERequest (googleKey cx : Option String)
    (upstream : UpstreamResult) : Except String CSEResponse :=
  if jsTruthy googleKey && jsTruthy cx then
    match upstream with
    | .netError => .error "Search service unavailable"
    | .payload none => .error "Failed to parse search results"
    | .payload (some r) =>
      match r.error with
      | some e => .error ("Google CSE API error: " ++ e.message)
      | none => .ok r
  else .error "Google CSE API key or CX not configured"

/-- Line 130: `cseResponse.searchInformation?.totalResults ?
parseInt(cseResponse.searchInformation.totalResults) : 0`.  The optional
chain yields `undefined` (falsy) when either link is absent; an empty
string is also falsy; any other string is parsed with `parseInt`. -/
def totalOf (r : CSEResponse) : Option Int :=
  match r.searchInformation.bind SearchInformation.totalResults with
  | none => some 0
  | some s => if s = "" then some 0 else parseIntJS s

/-- Lines 135-139: one normalized item, given the parsed offset and the
hostname already extracted from the item's link. -/
def resultOf (offsetN : Option Int) (index : Nat) (item : Item)
    (host : String) : ResultRec :=
  { id := jsAdd offsetN ((index : Int) + 1)
    title := item.title
    description := item.snippet
    url := item.link
    domain := host }

/-- The `.map((item, index) => ...)` of lines 134-140, evaluated
left-to-right inside the `try` block: `new URL(item.link)` may throw
(`hostname` returns `Except.error` with the thrown message), and the first
throw aborts the whole normalization, to be caught at line 145. -/
def normalizeItems (hostname : String → Except String String)
    (offsetN : Option Int) : Nat → List Item → Except String (List ResultRec)
  | _, [] => .ok []
  | i, item :: rest =>
    match hostname item.link with
    | .error msg => .error msg
    | .ok host =>
      match normalizeItems hostname offsetN (i + 1) rest with
      | .error msg => .error msg
      | .ok rs => .ok (resultOf offsetN i item host :: rs)

/-- The `/search` handler (lines 108-153): gate, `q` validation, pagination
arithmetic, upstream call, and normalization or error mapping.  The catch
at line 145 receives both upstream-client failures and exceptions thrown
during normalization (an unparsable item link), and answers 500 for
either. -/
def searchHandler (hostname : String → Except String String) (env : Env)
    (headerKey : Option String) (q : Option String)
    (limitRaw offsetRaw : Option String)
    (upstream : UpstreamResult) : HttpResult :=
  match validateApiKey headerKey env.expectedKey with
  | .configError => .failure 500 { error := "Server configuration error" }
  | .missingKey => .failure 401 { error := "Unauthorized: Missing API key header" }
  | .invalidKey => .failure 401 { error := "Unauthorized: Invalid API key" }
  | .pass =>
    match q with
    | none =>
      .failure 400
        { error := "Query parameter \"q\" is required and must be a non-empty string"
          allowedDomains := some ALLOW }
    | some qs =>
      if trimmedEmpty qs then
        .failure 400
          { error := "Query parameter \"q\" is required and must be a non-empty string"
            allowedDomains := some ALLOW }
      else
        let offsetN := parseParam offsetRaw 0
        let maxResults := jsMin (parseParam limitRaw 10) (some 10)
        match makeGoogleCSERequest env.googleKey env.cx upstream with
        | .error msg =>
          .failure 500
            { error := "Search service error"
              message := some msg
              allowedDomains := some ALLOW }
        | .ok r =>
          match normalizeItems hostname offsetN 0
              (jsSlice (r.items.getD []) maxResults) with
          | .error msg =>
            .failure 500
              { error := "Search service error"
                message := some msg
                allowedDomains := some ALLOW }
          | .ok rs =>
            .success
              { query := qs
                total := totalOf r
                limit := maxResults
                offset := offsetN
                allowedDomains := ALLOW
                results := rs }

/-- The `/health` response body (lines 156-164); `timestamp` is the wall
clock, passed in as `now`. -/
structure HealthBody where
  status : String
  timestamp : String
  allowedDomains : List String
  apiKeyConfigured : Bool
  googleCSEConfigured : Bool
  deriving Repr, DecidableEq

/-- The `/health` handler: registered without the credential middleware, it
takes no header and answers `res.status(200)` with its body. -/
def healthHandler (env : Env) (now : String) : Nat × HealthBody :=
  (200,
    { status := "OK"
      timestamp := now
      allowedDomains := ALLOW
      apiKeyConfigured := jsTruthy env.expectedKey
      googleCSEConfigured := jsTruthy env.googleKey && jsTruthy env.cx })

/-- Modelled from the spec: the clamp of `limit` into [1,10] that section
4.2 describes (used only to compare the spec's words with the code). -/
def specClamp (n : Int) : Int :=
  max 1 (min n 10)

/-- Modelled from the spec: the start index of section 4.2, which treats a
negative offset as 0 (used only to compare the spec's words with the code). -/
def specStartIndex (offset : Int) : Int :=
  max offset 0 + 1

/-- A fully configured environment used to instantiate theorems. -/
def sampleEnv : Env :=
  { expectedKey := some "k", googleKey := some "g", cx := some "c" }

/-- Two sample provider items used to instantiate theorems. -/
def sampleItems : List Item :=
  [ { title := "t1", snippet := "s1", link := "https://www.acog.org/a" },
    { title := "t2", snippet := "s2", link := "https://cdc.gov/b" } ]

/-- A sample successful provider payload with two items. -/
def sampleResponse : CSEResponse :=
  { searchInformation := some { totalResults := some "2" }
    items := some sampleItems
    error := none }

/-- The error message of the 400 response (lines 112-116). -/
def qRequiredMsg : String :=
  "Query parameter \"q\" is required and must be a non-empty string"

section Helpers

theorem joinOR_cons_cons (x y : String) (ys : List String) :
    joinOR (x :: y :: ys) = x ++ " OR " ++ joinOR (y :: ys) := rfl

/-- Any member of the mapped list occurs as a factor of the `joinOR` of the
map, with everything before it and everything after it as context. -/
theorem joinOR_mem_split (f : String → String) :
    ∀ (l : List String) (d : String), d ∈ l →
      ∃ pre post, joinOR (l.map f) = pre ++ f d ++ post := by
  intro l
  induction l with
  | nil => intro d hd; cases hd
  | cons x xs ih =>
    intro d hd
    rcases List.mem_cons.mp hd with rfl | hmem
    · cases xs with
      | nil =>
        exact ⟨"", "", by simp [joinOR, String.empty_append, String.append_empty]⟩
      | cons y ys =>
        refine ⟨"", " OR " ++ joinOR ((y :: ys).map f), ?_⟩
        rw [List.map_cons, List.map_cons, joinOR_cons_cons]
        rw [String.empty_append, String.append_assoc]
    · cases xs with
      | nil => cases hmem
      | cons y ys =>
        obtain ⟨pre, post, hsplit⟩ := ih d hmem
        refine ⟨f x ++ " OR " ++ pre, post, ?_⟩
        rw [List.map_cons, List.map_cons, joinOR_cons_cons, ← List.map_cons, hsplit]
        simp [String.append_assoc]

/-- When every link of the list parses, normalization does not throw. -/
theorem normalizeItems_ok_of_links (hostname : String → Except String String)
    (offsetN : Option Int) :
    ∀ (l : List Item) (i : Nat),
      (∀ item ∈ l, ∃ h, hostname item.link = Except.ok h) →
      ∃ rs, normalizeItems hostname offsetN i l = .ok rs := by
  intro l
  induction l with
  | nil => exact fun i _ => ⟨[], rfl⟩
  | cons item rest ih =>
    intro i hl
    obtain ⟨host, hhost⟩ := hl item (List.mem_cons_self item rest)
    obtain ⟨rs, hrs⟩ := ih (i + 1) (fun it hit => hl it (List.mem_cons_of_mem _ hit))
    exact ⟨resultOf offsetN i item host :: rs,
      by simp [normalizeItems, hhost, hrs]⟩

/-- Successful normalization keeps exactly one record per item. -/
theorem normalizeItems_length (hostname : String → Except String String)
    (offsetN : Option Int) :
    ∀ (l : List Item) (i : Nat) (rs : List ResultRec),
      normalizeItems hostname offsetN i l = .ok rs → rs.length = l.length := by
  intro l
  induction l with
  | nil =>
    intro i rs hrs
    simp only [normalizeItems] at hrs
    cases hrs
    rfl
  | cons item rest ih =>
    intro i rs hrs
    simp only [normalizeItems] at hrs
    cases hhost : hostname item.link with
    | error msg => rw [hhost] at hrs; cases hrs
    | ok host =>
      rw [hhost] at hrs
      cases hrec : normalizeItems hostname offsetN (i + 1) rest with
      | error msg => rw [hrec] at hrs; cases hrs
      | ok rs' =>
        rw [hrec] at hrs
        cases hrs
        simp [ih (i + 1) rs' hrec]

/-- The `id` of the `j`-th record of a successful normalization started at
index `i` is `offset + (i + j) + 1`. -/
theorem normalizeItems_id (hostname : String → Except String String)
    (off : Int) :
    ∀ (l : List Item) (i : Nat) (rs : List ResultRec),
      normalizeItems hostname (some off) i l = .ok rs →
      ∀ (j : Nat) (hj : j < rs.length),
        (rs.get ⟨j, hj⟩).id = some (off + (i + j : Nat) + 1) := by
  intro l
  induction l with
  | nil =>
    intro i rs hrs
    simp only [normalizeItems] at hrs
    cases hrs
    intro j hj
    cases hj
  | cons item rest ih =>
    intro i rs hrs
    simp only [normalizeItems] at hrs
    cases hhost : hostname item.link with
    | error msg => rw [hhost] at hrs; cases hrs
    | ok host =>
      rw [hhost] at hrs
      cases hrec : normalizeItems hostname (some off) (i + 1) rest with
      | error msg => rw [hrec] at hrs; cases hrs
      | ok rs' =>
        rw [hrec] at hrs
        cases hrs
        intro j hj
        cases j with
        | zero =>
          simp [resultOf, jsAdd]
          omega
        | succ j' =>
          have hj' : j' < rs'.length := by simpa using hj
          rw [List.get_cons_succ]
          rw [ih (i + 1) rs' hrec j' hj']
          congr 1
          push_cast
          omega

theorem validateApiKey_pass (k : String) (hk : k ≠ "") :
    validateApiKey (some k) (some k) = .pass := by
  simp [validateApiKey, jsTruthy, hk]

/-- Unfolding of the `/search` handler on its success path: every link of
the kept items parsed, so normalization returned `rs`. -/
theorem searchHandler_success (hostname : String → Except String String)
    (env : Env)
    (k qs : String) (limitRaw offsetRaw : Option String) (r : CSEResponse)
    (rs : List ResultRec)
    (hk : env.expectedKey = some k) (hk0 : k ≠ "")
    (hg : jsTruthy env.googleKey = true) (hc : jsTruthy env.cx = true)
    (hq : trimmedEmpty qs = false) (he : r.error = none)
    (hnorm : normalizeItems hostname (parseParam offsetRaw 0) 0
      (jsSlice (r.items.getD []) (jsMin (parseParam limitRaw 10) (some 10))) =
        .ok rs) :
    searchHandler hostname env (some k) (some qs) limitRaw offsetRaw
        (.payload (some r)) =
      .success
        { query := qs
          total := totalOf r
          limit := jsMin (parseParam limitRaw 10) (some 10)
          offset := parseParam offsetRaw 0
          allowedDomains := ALLOW
          results := rs } := by
  rw [searchHandler, hk, validateApiKey_pass k hk0]
  simp [hq, makeGoogleCSERequest, hg, hc, he, hnorm]

/-- Unfolding of the `/search` handler when `new URL` throws on a kept
item's link: the catch at line 145 answers 500 with the thrown message. -/
theorem searchHandler_norm_error (hostname : String → Except String String)
    (env : Env)
    (k qs : String) (limitRaw offsetRaw : Option String) (r : CSEResponse)
    (msg : String)
    (hk : env.expectedKey = some k) (hk0 : k ≠ "")
    (hg : jsTruthy env.googleKey = true) (hc : jsTruthy env.cx = true)
    (hq : trimmedEmpty qs = false) (he : r.error = none)
    (hnorm : normalizeItems hostname (parseParam offsetRaw 0) 0
      (jsSlice (r.items.getD []) (jsMin (parseParam limitRaw 10) (some 10))) =
        .error msg) :
    searchHandler hostname env (some k) (some qs) limitRaw offsetRaw
        (.payload (some r)) =
      .failure 500
        { error := "Search service error"
          message := some msg
          allowedDomains := some ALLOW } := by
  rw [searchHandler, hk, validateApiKey_pass k hk0]
  simp [hq, makeGoogleCSERequest, hg, hc, he, hnorm]

/-- Unfolding of the `/search` handler when the upstream client fails. -/
theorem searchHandler_upstream_error (hostname : String → Except String String)
    (env : Env)
    (k qs : String) (limitRaw offsetRaw : Option String)
    (upstream : UpstreamResult) (msg : String)
    (hk : env.expectedKey = some k) (hk0 : k ≠ "")
    (hq : trimmedEmpty qs = false)
    (hu : makeGoogleCSERequest env.googleKey env.cx upstream = .error msg) :
    searchHandler hostname env (some k) (some qs) limitRaw offsetRaw upstream =
      .failure 500
        { error := "Search service error"
          message := some msg
          allowedDomains := some ALLOW } := by
  rw [searchHandler, hk, validateApiKey_pass k hk0]
  simp [hq, hu]

theorem validateApiKey_noconfig (apiKey : Option String) :
    validateApiKey apiKey none = .configError := by
  simp [validateApiKey, jsTruthy]

theorem validateApiKey_missing (k : String) (hk0 : k ≠ "") :
    validateApiKey none (some k) = .missingKey := by
  simp [validateApiKey, jsTruthy, hk0]

theorem validateApiKey_invalid (h k : String) (h0 : h ≠ "") (hne : h ≠ k)
    (hk0 : k ≠ "") : validateApiKey (some h) (some k) = .invalidKey := by
  simp [validateApiKey, jsTruthy, hk0, h0, hne]

theorem validateApiKey_empty (k : String) (hk0 : k ≠ "") :
    validateApiKey (some "") (some k) = .missingKey := by
  simp [validateApiKey, jsTruthy, hk0]

theorem length_jsSlice_le (l : List α) (n : Int) (hn : 0 ≤ n) :
    (jsSlice l (some n)).length ≤ n.toNat := by
  show (l.take (max 0 (if 0 ≤ n then n else (l.length : Int) + n)).toNat).length ≤
    n.toNat
  rw [if_pos hn, List.length_take]
  omega

end Helpers

/-- C1: for every non-empty allowlist and every query, the provider query
string composed on line 46 contains the site-restriction term `site:<d>`
for every domain `d` of the allowlist, and it is the caller's query text
followed (logical AND by juxtaposition) by the parenthesised OR-join of the
per-domain terms. -/
theorem c1_composed_query_site_terms (allow : List String) (q d : String)
    (hd : d ∈ allow) :
    (∃ pre post, composedQueryOf allow q = pre ++ ("site:" ++ d) ++ post) ∧
    composedQueryOf allow q =
      q ++ " (" ++ joinOR (allow.map (fun dom => "site:" ++ dom)) ++ ")" := by
  constructor
  · obtain ⟨pre, post, hsplit⟩ :=
      joinOR_mem_split (fun dom => "site:" ++ dom) allow d hd
    refine ⟨q ++ " (" ++ pre, post ++ ")", ?_⟩
    rw [composedQueryOf, siteRestrictOf, hsplit]
    simp [String.append_assoc]
  · rfl

/-- Witness for C1 at the fixed allowlist `ALLOW` and a concrete query. -/
theorem c1_composed_query_site_terms_witness :
    "acog.org" ∈ ALLOW ∧
    ((∃ pre post,
        composedQueryOf ALLOW "preeclampsia" = pre ++ ("site:" ++ "acog.org") ++ post) ∧
      composedQueryOf ALLOW "preeclampsia" =
        "preeclampsia" ++ " (" ++ joinOR (ALLOW.map (fun dom => "site:" ++ dom)) ++ ")") :=
  ⟨by decide, c1_composed_query_site_terms ALLOW "preeclampsia" "acog.org" (by decide)⟩

/-- C2: on an accepted request with parsed `offset ≥ 0` and parsed `limit`
in [1,10], whose kept items' links all parse (otherwise `new URL` throws
and the catch answers 500 instead of returning results), the start index of
line 122 is `offset + 1` and the `id`s of the returned results are
`offset+1, offset+2, ...` in the order of the provider's item sequence. -/
theorem c2_start_index_and_sequential_ids (hostname : String → Except String String)
    (env : Env) (k qs : String) (limitRaw offsetRaw : Option String)
    (r : CSEResponse) (off lim : Int)
    (hk : env.expectedKey = some k) (hk0 : k ≠ "")
    (hg : jsTruthy env.googleKey = true) (hc : jsTruthy env.cx = true)
    (hq : trimmedEmpty qs = false) (he : r.error = none)
    (hoff : parseParam offsetRaw 0 = some off) (hoff0 : 0 ≤ off)
    (hlim : parseParam limitRaw 10 = some lim)
    (hlim1 : 1 ≤ lim) (hlim10 : lim ≤ 10)
    (hlinks : ∀ item ∈ jsSlice (r.items.getD [])
        (jsMin (parseParam limitRaw 10) (some 10)),
      ∃ h, hostname item.link = Except.ok h) :
    startOf (parseParam offsetRaw 0) = some (off + 1) ∧
    ∃ body,
      searchHandler hostname env (some k) (some qs) limitRaw offsetRaw
          (.payload (some r)) = .success body ∧
      ∀ (i : Nat) (h : i < body.results.length),
        (body.results.get ⟨i, h⟩).id = some (off + i + 1) := by
  obtain ⟨rs, hnorm⟩ := normalizeItems_ok_of_links hostname
    (parseParam offsetRaw 0) _ 0 hlinks
  have hmain := searchHandler_success hostname env k qs limitRaw offsetRaw r rs
    hk hk0 hg hc hq he hnorm
  rw [hoff] at hnorm
  refine ⟨by rw [hoff]; rfl, _, hmain, ?_⟩
  intro i h
  have hid := normalizeItems_id hostname off _ 0 rs hnorm i h
  simpa using hid

/-- Witness for C2 with two provider items, `limit=5`, `offset=0`. -/
theorem c2_start_index_and_sequential_ids_witness :
    startOf (parseParam (some "0") 0) = some ((0 : Int) + 1) ∧
    ∃ body,
      searchHandler (fun _ => Except.ok "h") sampleEnv (some "k") (some "preeclampsia")
          (some "5") (some "0") (.payload (some sampleResponse)) = .success body ∧
      ∀ (i : Nat) (h : i < body.results.length),
        (body.results.get ⟨i, h⟩).id = some ((0 : Int) + i + 1) :=
  c2_start_index_and_sequential_ids (fun _ => Except.ok "h") sampleEnv "k" "preeclampsia"
    (some "5") (some "0") sampleResponse 0 5 rfl (by decide) (by decide)
    (by decide) (by decide) rfl (by decide) (by decide) (by decide) (by decide)
    (by decide) (fun item _ => ⟨"h", rfl⟩)

/-- C4 counterexample: the caller-supplied offset `-1` is not treated as 0;
line 122 passes `parseInt("-1") + 1 = 0` to the provider, not the start
index 1 the claim requires. -/
theorem c4_negative_offset_counterexample :
    startOf (parseParam (some "-1") 0) = some 0 ∧
    specStartIndex (-1) = 1 ∧
    startOf (parseParam (some "-1") 0) ≠ some (specStartIndex (-1)) := by
  decide

/-- C4 amended: the start index sent to the provider is `offset + 1` for
every parsed offset, including negative ones, which are passed through
rather than treated as 0. -/
theorem c4_start_index_amended (offsetRaw : Option String) (off : Int)
    (hoff : parseParam offsetRaw 0 = some off) :
    startOf (parseParam offsetRaw 0) = some (off + 1) := by
  rw [hoff]; rfl

/-- Witness for the amended C4 at the negative offset `-3`. -/
theorem c4_start_index_amended_witness :
    startOf (parseParam (some "-3") 0) = some ((-3 : Int) + 1) :=
  c4_start_index_amended (some "-3") (-3) (by decide)

/-- C3 counterexample: at `limit=0` the response's `limit` field and the
number of kept items are both 0, while the claimed clamp into [1,10] is 1;
line 123 only applies `Math.min(·, 10)` and never raises small values. -/
theorem c3_limit_clamp_counterexample :
    searchHandler (fun _ => Except.ok "h") sampleEnv (some "k") (some "q") (some "0")
        none (.payload (some sampleResponse)) =
      .success
        { query := "q", total := some 2, limit := some 0, offset := some 0,
          allowedDomains := ALLOW, results := [] } ∧
    specClamp 0 = 1 ∧
    some (0 : Int) ≠ some (specClamp 0) :=
  ⟨rfl, rfl, by decide⟩

/-- C3 amended: on requests whose kept items' links all parse (a bad link
instead lands in the catch as 500), the effective limit is
`min(parsedLimit, 10)`: values above 10 are silently clamped to 10 and
never rejected, but values below 1 are not raised to 1 (e.g. `limit=0`
keeps no items and reports `limit` 0). -/
theorem c3_limit_min_ten (hostname : String → Except String String) (env : Env)
    (k qs : String) (limitRaw offsetRaw : Option String) (r : CSEResponse)
    (lim : Int)
    (hk : env.expectedKey = some k) (hk0 : k ≠ "")
    (hg : jsTruthy env.googleKey = true) (hc : jsTruthy env.cx = true)
    (hq : trimmedEmpty qs = false) (he : r.error = none)
    (hlim : parseParam limitRaw 10 = some lim)
    (hlinks : ∀ item ∈ jsSlice (r.items.getD [])
        (jsMin (parseParam limitRaw 10) (some 10)),
      ∃ h, hostname item.link = Except.ok h) :
    ∃ body,
      searchHandler hostname env (some k) (some qs) limitRaw offsetRaw
          (.payload (some r)) = .success body ∧
      body.limit = some (min lim 10) ∧
      (10 ≤ lim → body.limit = some 10) ∧
      (0 ≤ lim → body.results.length ≤ (min lim 10).toNat) := by
  obtain ⟨rs, hnorm⟩ := normalizeItems_ok_of_links hostname
    (parseParam offsetRaw 0) _ 0 hlinks
  have hlen := normalizeItems_length hostname (parseParam offsetRaw 0) _ 0 rs
    hnorm
  refine ⟨_, searchHandler_success hostname env k qs limitRaw offsetRaw r rs
    hk hk0 hg hc hq he hnorm, ?_, ?_, ?_⟩
  · simp [hlim, jsMin]
  · intro h10
    simp [hlim, jsMin, min_eq_right h10]
  · intro h0
    show rs.length ≤ (min lim 10).toNat
    rw [hlen, hlim]
    exact length_jsSlice_le _ _ (by omega)

/-- Witness for the amended C3 at `limit=50` (clamped to 10). -/
theorem c3_limit_min_ten_witness :
    ∃ body,
      searchHandler (fun _ => Except.ok "h") sampleEnv (some "k") (some "q")
          (some "50") none (.payload (some sampleResponse)) = .success body ∧
      body.limit = some (min 50 10) ∧
      (10 ≤ (50 : Int) → body.limit = some 10) ∧
      (0 ≤ (50 : Int) → body.results.length ≤ (min (50 : Int) 10).toNat) :=
  c3_limit_min_ten (fun _ => Except.ok "h") sampleEnv "k" "q" (some "50") none
    sampleResponse 50 rfl (by decide) (by decide) (by decide) (by decide) rfl
    (by decide) (fun item _ => ⟨"h", rfl⟩)

/-- C5: with the shared secret unconfigured every `/search` call answers
500 whatever header is sent; with a configured secret a missing header
answers 401 and a mismatched header answers 401; `/health` carries no
credential middleware and answers 200 under every configuration. -/
theorem c5_credential_gate_statuses :
    (∀ (hostname : String → Except String String) (env : Env) (headerKey : Option String)
        (q limitRaw offsetRaw : Option String) (up : UpstreamResult),
        env.expectedKey = none →
        searchHandler hostname env headerKey q limitRaw offsetRaw up =
          .failure 500 { error := "Server configuration error" }) ∧
    (∀ (hostname : String → Except String String) (env : Env) (k : String)
        (q limitRaw offsetRaw : Option String) (up : UpstreamResult),
        env.expectedKey = some k → k ≠ "" →
        searchHandler hostname env none q limitRaw offsetRaw up =
          .failure 401 { error := "Unauthorized: Missing API key header" } ∧
        ∀ h, h ≠ k →
          httpStatus (searchHandler hostname env (some h) q limitRaw offsetRaw up) =
            401) ∧
    (∀ (env : Env) (now : String), (healthHandler env now).1 = 200) := by
  refine ⟨?_, ?_, ?_⟩
  · intro hostname env headerKey q limitRaw offsetRaw up henv
    unfold searchHandler
    rw [henv, validateApiKey_noconfig]
  · intro hostname env k q limitRaw offsetRaw up henv hk0
    constructor
    · unfold searchHandler
      rw [henv, validateApiKey_missing k hk0]
    · intro h hne
      by_cases h0 : h = ""
      · subst h0
        unfold searchHandler
        rw [henv, validateApiKey_empty k hk0]
        rfl
      · unfold searchHandler
        rw [henv, validateApiKey_invalid h k h0 hne hk0]
        rfl
  · intro env now
    rfl

/-- Witness for C5 at concrete configurations and headers. -/
theorem c5_credential_gate_statuses_witness :
    searchHandler (fun _ => Except.ok "h") { expectedKey := none, googleKey := none, cx := none }
        (some "any") (some "q") none none .netError =
      .failure 500 { error := "Server configuration error" } ∧
    searchHandler (fun _ => Except.ok "h") sampleEnv none (some "q") none none .netError =
      .failure 401 { error := "Unauthorized: Missing API key header" } ∧
    httpStatus (searchHandler (fun _ => Except.ok "h") sampleEnv (some "wrong") (some "q")
      none none .netError) = 401 ∧
    (healthHandler sampleEnv "2026-10-11T00:00:00Z").1 = 200 :=
  ⟨c5_credential_gate_statuses.1 _ _ _ _ _ _ _ rfl,
   (c5_credential_gate_statuses.2.1 _ _ "k" _ _ _ _ rfl (by decide)).1,
   (c5_credential_gate_statuses.2.1 _ _ "k" _ _ _ _ rfl (by decide)).2 "wrong"
     (by decide),
   c5_credential_gate_statuses.2.2 sampleEnv "2026-10-11T00:00:00Z"⟩

/-- C6 counterexample: the 401 missing-credential body carries only the
`error` field; its `allowedDomains` is absent (`none`), not the allowlist,
so not every error body includes `allowedDomains`. -/
theorem c6_error_body_counterexample :
    searchHandler (fun _ => Except.ok "h") sampleEnv none (some "q") none none
        (.payload none) =
      .failure 401
        { error := "Unauthorized: Missing API key header"
          message := none
          allowedDomains := none } ∧
    (none : Option (List String)) ≠ some ALLOW :=
  ⟨rfl, by decide⟩

/-- C6 amended: the 400 body and the upstream-failure 500 body include
`allowedDomains`; the credential-gate bodies (401 missing, 401 invalid,
configuration 500) contain only `error`, with no `message` and no
`allowedDomains`. -/
theorem c6_error_body_shapes :
    (∀ (hostname : String → Except String String) (env : Env) (k : String)
        (limitRaw offsetRaw : Option String) (up : UpstreamResult),
        env.expectedKey = some k → k ≠ "" →
        searchHandler hostname env (some k) none limitRaw offsetRaw up =
          .failure 400 { error := qRequiredMsg, allowedDomains := some ALLOW }) ∧
    (∀ (hostname : String → Except String String) (env : Env) (k qs : String)
        (limitRaw offsetRaw : Option String) (up : UpstreamResult) (msg : String),
        env.expectedKey = some k → k ≠ "" → trimmedEmpty qs = false →
        makeGoogleCSERequest env.googleKey env.cx up = .error msg →
        searchHandler hostname env (some k) (some qs) limitRaw offsetRaw up =
          .failure 500
            { error := "Search service error"
              message := some msg
              allowedDomains := some ALLOW }) ∧
    (∀ (hostname : String → Except String String) (env : Env) (k : String)
        (q limitRaw offsetRaw : Option String) (up : UpstreamResult),
        env.expectedKey = some k → k ≠ "" →
        searchHandler hostname env none q limitRaw offsetRaw up =
          .failure 401
            { error := "Unauthorized: Missing API key header"
              message := none
              allowedDomains := none }) ∧
    (∀ (hostname : String → Except String String) (env : Env) (k h : String)
        (q limitRaw offsetRaw : Option String) (up : UpstreamResult),
        env.expectedKey = some k → k ≠ "" → h ≠ "" → h ≠ k →
        searchHandler hostname env (some h) q limitRaw offsetRaw up =
          .failure 401
            { error := "Unauthorized: Invalid API key"
              message := none
              allowedDomains := none }) ∧
    (∀ (hostname : String → Except String String) (env : Env) (headerKey : Option String)
        (q limitRaw offsetRaw : Option String) (up : UpstreamResult),
        env.expectedKey = none →
        searchHandler hostname env headerKey q limitRaw offsetRaw up =
          .failure 500
            { error := "Server configuration error"
              message := none
              allowedDomains := none }) := by
  refine ⟨?_, ?_, ?_, ?_, ?_⟩
  · intro hostname env k limitRaw offsetRaw up henv hk0
    unfold searchHandler
    rw [henv, validateApiKey_pass k hk0]
    rfl
  · intro hostname env k qs limitRaw offsetRaw up msg henv hk0 hq hu
    exact searchHandler_upstream_error hostname env k qs limitRaw offsetRaw up
      msg henv hk0 hq hu
  · intro hostname env k q limitRaw offsetRaw up henv hk0
    unfold searchHandler
    rw [henv, validateApiKey_missing k hk0]
  · intro hostname env k h q limitRaw offsetRaw up henv hk0 h0 hne
    unfold searchHandler
    rw [henv, validateApiKey_invalid h k h0 hne hk0]
  · intro hostname env headerKey q limitRaw offsetRaw up henv
    unfold searchHandler
    rw [henv, validateApiKey_noconfig]

/-- Witness for the amended C6 at concrete requests of each error kind. -/
theorem c6_error_body_shapes_witness :
    searchHandler (fun _ => Except.ok "h") sampleEnv (some "k") none none none .netError =
      .failure 400 { error := qRequiredMsg, allowedDomains := some ALLOW } ∧
    searchHandler (fun _ => Except.ok "h") sampleEnv (some "k") (some "q") none none
        .netError =
      .failure 500
        { error := "Search service error"
          message := some "Search service unavailable"
          allowedDomains := some ALLOW } ∧
    searchHandler (fun _ => Except.ok "h") sampleEnv (some "wrong") (some "q") none none
        .netError =
      .failure 401
        { error := "Unauthorized: Invalid API key"
          message := none
          allowedDomains := none } :=
  ⟨c6_error_body_shapes.1 _ _ "k" _ _ _ rfl (by decide),
   c6_error_body_shapes.2.1 _ _ "k" "q" _ _ _ _ rfl (by decide) (by decide) rfl,
   c6_error_body_shapes.2.2.2.1 _ _ "k" "wrong" _ _ _ _ rfl (by decide)
     (by decide) (by decide)⟩

/-- C7 counterexample: a present but non-numeric total-result count is
truthy, so line 130 calls `parseInt` on it and the response's `total` is
`NaN` (`none`), not the 0 the claim requires for an unparsable count. -/
theorem c7_total_nan_counterexample :
    searchHandler (fun _ => Except.ok "h") sampleEnv (some "k") (some "q") none none
        (.payload (some
          { searchInformation := some { totalResults := some "approx" }
            items := some []
            error := none })) =
      .success
        { query := "q", total := none, limit := some 10, offset := some 0,
          allowedDomains := ALLOW, results := [] } ∧
    (none : Option Int) ≠ some 0 :=
  ⟨rfl, by decide⟩

/-- C7 amended: on a successful search the `total` field is 0 when the
provider's total-result count is absent or is the empty string, and is
`parseInt` of the count when it is present and non-empty — which is `NaN`
rather than 0 when the count has no leading integer. -/
theorem c7_total_field (hostname : String → Except String String) (env : Env)
    (k qs : String) (limitRaw offsetRaw : Option String) (r : CSEResponse)
    (hk : env.expectedKey = some k) (hk0 : k ≠ "")
    (hg : jsTruthy env.googleKey = true) (hc : jsTruthy env.cx = true)
    (hq : trimmedEmpty qs = false) (he : r.error = none)
    (hlinks : ∀ item ∈ jsSlice (r.items.getD [])
        (jsMin (parseParam limitRaw 10) (some 10)),
      ∃ h, hostname item.link = Except.ok h) :
    ∃ body,
      searchHandler hostname env (some k) (some qs) limitRaw offsetRaw
          (.payload (some r)) = .success body ∧
      (r.searchInformation.bind SearchInformation.totalResults = none →
        body.total = some 0) ∧
      (r.searchInformation.bind SearchInformation.totalResults = some "" →
        body.total = some 0) ∧
      (∀ s, r.searchInformation.bind SearchInformation.totalResults = some s →
        s ≠ "" → body.total = parseIntJS s) := by
  obtain ⟨rs, hnorm⟩ := normalizeItems_ok_of_links hostname
    (parseParam offsetRaw 0) _ 0 hlinks
  refine ⟨_, searchHandler_success hostname env k qs limitRaw offsetRaw r rs
    hk hk0 hg hc hq he hnorm, ?_, ?_, ?_⟩
  · intro hnone
    simp [totalOf, hnone]
  · intro hempty
    simp [totalOf, hempty]
  · intro s hs hne
    simp [totalOf, hs, hne]

/-- Witness for the amended C7 with the provider count "2". -/
theorem c7_total_field_witness :
    ∃ body,
      searchHandler (fun _ => Except.ok "h") sampleEnv (some "k") (some "q") none none
          (.payload (some sampleResponse)) = .success body ∧
      (sampleResponse.searchInformation.bind SearchInformation.totalResults = none →
        body.total = some 0) ∧
      (sampleResponse.searchInformation.bind SearchInformation.totalResults = some "" →
        body.total = some 0) ∧
      (∀ s, sampleResponse.searchInformation.bind SearchInformation.totalResults = some s →
        s ≠ "" → body.total = parseIntJS s) :=
  c7_total_field (fun _ => Except.ok "h") sampleEnv "k" "q" none none sampleResponse
    rfl (by decide) (by decide) (by decide) (by decide) rfl
    (fun item _ => ⟨"h", rfl⟩)

/-- C8: when the provider payload embeds an error object, the gateway
answers 500 with `error` exactly "Search service error" and `message`
derived from the provider's error message; the whole response is the same
under every configured provider API key, so the key appears in neither
field. -/
theorem c8_provider_error_surfaced (hostname : String → Except String String) (env : Env)
    (k qs : String) (limitRaw offsetRaw : Option String) (r : CSEResponse)
    (e : CSEError)
    (hk : env.expectedKey = some k) (hk0 : k ≠ "")
    (hg : jsTruthy env.googleKey = true) (hc : jsTruthy env.cx = true)
    (hq : trimmedEmpty qs = false) (he : r.error = some e) :
    searchHandler hostname env (some k) (some qs) limitRaw offsetRaw
        (.payload (some r)) =
      .failure 500
        { error := "Search service error"
          message := some ("Google CSE API error: " ++ e.message)
          allowedDomains := some ALLOW } ∧
    (∀ gk cxv : String, gk ≠ "" → cxv ≠ "" →
      searchHandler hostname
          { expectedKey := env.expectedKey, googleKey := some gk, cx := some cxv }
          (some k) (some qs) limitRaw offsetRaw (.payload (some r)) =
        .failure 500
          { error := "Search service error"
            message := some ("Google CSE API error: " ++ e.message)
            allowedDomains := some ALLOW }) := by
  constructor
  · exact searchHandler_upstream_error hostname env k qs limitRaw offsetRaw
      (.payload (some r)) _ hk hk0 hq
      (by simp [makeGoogleCSERequest, hg, hc, he])
  · intro gk cxv hgk hcx
    exact searchHandler_upstream_error hostname
      { expectedKey := env.expectedKey, googleKey := some gk, cx := some cxv }
      k qs limitRaw offsetRaw (.payload (some r)) _ hk hk0 hq
      (by simp [makeGoogleCSERequest, jsTruthy, hgk, hcx, he])

/-- Witness for C8 at a concrete provider error message. -/
theorem c8_provider_error_surfaced_witness :
    searchHandler (fun _ => Except.ok "h") sampleEnv (some "k") (some "q") none none
        (.payload (some
          { searchInformation := none
            items := none
            error := some { message := "Daily Limit Exceeded" } })) =
      .failure 500
        { error := "Search service error"
          message := some ("Google CSE API error: " ++ "Daily Limit Exceeded")
          allowedDomains := some ALLOW } ∧
    (∀ gk cxv : String, gk ≠ "" → cxv ≠ "" →
      searchHandler (fun _ => Except.ok "h")
          { expectedKey := sampleEnv.expectedKey, googleKey := some gk, cx := some cxv }
          (some "k") (some "q") none none
          (.payload (some
            { searchInformation := none
              items := none
              error := some { message := "Daily Limit Exceeded" } })) =
        .failure 500
          { error := "Search service error"
            message := some ("Google CSE API error: " ++ "Daily Limit Exceeded")
            allowedDomains := some ALLOW }) :=
  c8_provider_error_surfaced (fun _ => Except.ok "h") sampleEnv "k" "q" none none
    { searchInformation := none
      items := none
      error := some { message := "Daily Limit Exceeded" } }
    { message := "Daily Limit Exceeded" }
    rfl (by decide) (by decide) (by decide) (by decide) rfl

/-- C9: the allowlist is the fixed duplicate-free list of 24 hostnames
(immutability is inherent: `ALLOW` is a constant never reassigned), and the
success body, the 400 body, the upstream-error 500 body, the 500 body for a
normalization throw (an unparsable item link) and the `/health` body all
echo exactly this list. -/
theorem c9_allowlist_everywhere :
    ALLOW.length = 24 ∧ ALLOW.Nodup ∧
    (∀ (hostname : String → Except String String) (env : Env) (k qs : String)
        (limitRaw offsetRaw : Option String) (r : CSEResponse),
        env.expectedKey = some k → k ≠ "" →
        jsTruthy env.googleKey = true → jsTruthy env.cx = true →
        trimmedEmpty qs = false → r.error = none →
        (∀ item ∈ jsSlice (r.items.getD [])
            (jsMin (parseParam limitRaw 10) (some 10)),
          ∃ h, hostname item.link = Except.ok h) →
        ∃ body,
          searchHandler hostname env (some k) (some qs) limitRaw offsetRaw
              (.payload (some r)) = .success body ∧
          body.allowedDomains = ALLOW) ∧
    (∀ (hostname : String → Except String String) (env : Env) (k : String)
        (limitRaw offsetRaw : Option String) (up : UpstreamResult),
        env.expectedKey = some k → k ≠ "" →
        searchHandler hostname env (some k) none limitRaw offsetRaw up =
          .failure 400 { error := qRequiredMsg, allowedDomains := some ALLOW }) ∧
    (∀ (hostname : String → Except String String) (env : Env) (k qs : String)
        (limitRaw offsetRaw : Option String) (up : UpstreamResult) (msg : String),
        env.expectedKey = some k → k ≠ "" → trimmedEmpty qs = false →
        makeGoogleCSERequest env.googleKey env.cx up = .error msg →
        searchHandler hostname env (some k) (some qs) limitRaw offsetRaw up =
          .failure 500
            { error := "Search service error"
              message := some msg
              allowedDomains := some ALLOW }) ∧
    (∀ (hostname : String → Except String String) (env : Env) (k qs : String)
        (limitRaw offsetRaw : Option String) (r : CSEResponse) (msg : String),
        env.expectedKey = some k → k ≠ "" →
        jsTruthy env.googleKey = true → jsTruthy env.cx = true →
        trimmedEmpty qs = false → r.error = none →
        normalizeItems hostname (parseParam offsetRaw 0) 0
          (jsSlice (r.items.getD []) (jsMin (parseParam limitRaw 10) (some 10))) =
            .error msg →
        searchHandler hostname env (some k) (some qs) limitRaw offsetRaw
            (.payload (some r)) =
          .failure 500
            { error := "Search service error"
              message := some msg
              allowedDomains := some ALLOW }) ∧
    (∀ (env : Env) (now : String),
        (healthHandler env now).2.allowedDomains = ALLOW) := by
  refine ⟨rfl, by decide, ?_, ?_, ?_, ?_, ?_⟩
  · intro hostname env k qs limitRaw offsetRaw r henv hk0 hg hc hq he hlinks
    obtain ⟨rs, hnorm⟩ := normalizeItems_ok_of_links hostname
      (parseParam offsetRaw 0) _ 0 hlinks
    exact ⟨_, searchHandler_success hostname env k qs limitRaw offsetRaw r rs
      henv hk0 hg hc hq he hnorm, rfl⟩
  · intro hostname env k limitRaw offsetRaw up henv hk0
    unfold searchHandler
    rw [henv, validateApiKey_pass k hk0]
    rfl
  · intro hostname env k qs limitRaw offsetRaw up msg henv hk0 hq hu
    exact searchHandler_upstream_error hostname env k qs limitRaw offsetRaw up
      msg henv hk0 hq hu
  · intro hostname env k qs limitRaw offsetRaw r msg henv hk0 hg hc hq he hnorm
    exact searchHandler_norm_error hostname env k qs limitRaw offsetRaw r msg
      henv hk0 hg hc hq he hnorm
  · intro env now
    rfl

/-- Witness for C9 at concrete requests of each kind. -/
theorem c9_allowlist_everywhere_witness :
    (∃ body,
      searchHandler (fun _ => Except.ok "h") sampleEnv (some "k") (some "q") none none
          (.payload (some sampleResponse)) = .success body ∧
      body.allowedDomains = ALLOW) ∧
    searchHandler (fun _ => Except.ok "h") sampleEnv (some "k") none none none .netError =
      .failure 400 { error := qRequiredMsg, allowedDomains := some ALLOW } ∧
    searchHandler (fun _ => Except.ok "h") sampleEnv (some "k") (some "q") none none
        .netError =
      .failure 500
        { error := "Search service error"
          message := some "Search service unavailable"
          allowedDomains := some ALLOW } ∧
    searchHandler (fun _ => Except.error "Invalid URL") sampleEnv (some "k")
        (some "q") none none (.payload (some sampleResponse)) =
      .failure 500
        { error := "Search service error"
          message := some "Invalid URL"
          allowedDomains := some ALLOW } ∧
    (healthHandler sampleEnv "2026-10-11T00:00:00Z").2.allowedDomains = ALLOW :=
  ⟨c9_allowlist_everywhere.2.2.1 _ sampleEnv "k" "q" _ _ _ rfl (by decide)
     (by decide) (by decide) (by decide) rfl (fun item _ => ⟨"h", rfl⟩),
   c9_allowlist_everywhere.2.2.2.1 _ sampleEnv "k" _ _ _ rfl (by decide),
   c9_allowlist_everywhere.2.2.2.2.1 _ sampleEnv "k" "q" _ _ _ _ rfl (by decide)
     (by decide) rfl,
   c9_allowlist_everywhere.2.2.2.2.2.1 _ sampleEnv "k" "q" _ _ sampleResponse _
     rfl (by decide) (by decide) (by decide) (by decide) rfl rfl,
   c9_allowlist_everywhere.2.2.2.2.2.2 sampleEnv "2026-10-11T00:00:00Z"⟩

/-- C10: when the caller's `limit` does not parse (`parseInt` gives `NaN`),
an otherwise successful search still answers 200, `Math.min(NaN, 10)` is
`NaN`, `slice(0, NaN)` keeps no items, and the `limit` field is `NaN`
(`none`) rather than the default 10. -/
theorem c10_nan_limit_empty_results (hostname : String → Except String String) (env : Env)
    (k qs : String) (limitRaw offsetRaw : Option String) (r : CSEResponse)
    (hk : env.expectedKey = some k) (hk0 : k ≠ "")
    (hg : jsTruthy env.googleKey = true) (hc : jsTruthy env.cx = true)
    (hq : trimmedEmpty qs = false) (he : r.error = none)
    (hnan : parseParam limitRaw 10 = none) :
    ∃ body,
      searchHandler hostname env (some k) (some qs) limitRaw offsetRaw
          (.payload (some r)) = .success body ∧
      body.results = [] ∧ body.limit = none ∧
      httpStatus (searchHandler hostname env (some k) (some qs) limitRaw
        offsetRaw (.payload (some r))) = 200 := by
  have hnorm : normalizeItems hostname (parseParam offsetRaw 0) 0
      (jsSlice (r.items.getD []) (jsMin (parseParam limitRaw 10) (some 10))) =
        .ok [] := by
    rw [hnan]
    rfl
  have heq := searchHandler_success hostname env k qs limitRaw offsetRaw r []
    hk hk0 hg hc hq he hnorm
  refine ⟨_, heq, rfl, ?_, by rw [heq]; rfl⟩
  show jsMin (parseParam limitRaw 10) (some 10) = none
  rw [hnan]
  rfl

/-- Witness for C10 at the unparsable limit "abc". -/
theorem c10_nan_limit_empty_results_witness :
    ∃ body,
      searchHandler (fun _ => Except.ok "h") sampleEnv (some "k") (some "q") (some "abc")
          none (.payload (some sampleResponse)) = .success body ∧
      body.results = [] ∧ body.limit = none ∧
      httpStatus (searchHandler (fun _ => Except.ok "h") sampleEnv (some "k") (some "q")
        (some "abc") none (.payload (some sampleResponse))) = 200 :=
  c10_nan_limit_empty_results (fun _ => Except.ok "h") sampleEnv "k" "q" (some "abc")
    none sampleResponse rfl (by decide) (by decide) (by decide) (by decide) rfl
    (by decide)
